import Mathlib

/-
Verification of the whisper_backend orchestration layer.

The definitions below are a shallow embedding of the Python source:
  src/voice_service.py  (VoiceService.process_audio, VoiceService.process_stream,
                         VoiceService._clean_whisper_output)
  src/main.py           (recognize_audio handler, websocket_endpoint / process_audio loop)

Machine floats are modelled at two levels.  The session model
processMessage idealises buffer_duration over the rationals; the claims
settled against it only exercise values at which binary floating point is
exact.  The refined model processMessageNp keeps the duration as a numpy
float64 value (NpQ): the nan and infinity results of division by a zero
declared sample rate and their IEEE propagation are represented exactly,
while arithmetic between ordinary values is idealised as exact rational
arithmetic; the buffer invariant proved about it uses only the branch
structure, never exactness of finite addition.  Strings are modelled
through List Char; the regular
expressions of _clean_whisper_output are implemented directly as scanners with
re.sub leftmost, non-overlapping semantics.  Whitespace classes are the ASCII
whitespace characters.
-/

/-- The ASCII whitespace characters recognised by str.strip and the regex
class \s (the model restricts the Unicode classes to ASCII). -/
def isPySpace (c : Char) : Bool :=
  c = ' ' || c = '\t' || c = '\n' || c = '\r' || c = '\x0b' || c = '\x0c'

/-- Python str.strip() on a character list: drop leading and trailing
whitespace. -/
def pyStripList (l : List Char) : List Char :=
  ((l.dropWhile isPySpace).reverse.dropWhile isPySpace).reverse

/-- Python str.strip() on strings. -/
def pyStrip (s : String) : String := String.mk (pyStripList s.data)

/-- After ESC [ : greedily consume [0-9;]* and then require one ASCII letter;
returns the suffix after the match, or none when the pattern fails here. -/
def dropAnsiParams : List Char → Option (List Char)
  | [] => none
  | c :: cs =>
    if c.isDigit || c = ';' then dropAnsiParams cs
    else if c.isAlpha then some cs
    else none

/-- Try to match the regex \x1b\[[0-9;]*[a-zA-Z] at the head of the list. -/
def matchAnsi : List Char → Option (List Char)
  | '\x1b' :: '[' :: rest => dropAnsiParams rest
  | _ => none

/-- re.sub of the ANSI pattern with the empty string, scanning left to right,
non-overlapping (voice_service.py line 256).  Fuel at least the length of the
list; every step consumes at least one character. -/
def removeAnsiAux : Nat → List Char → List Char
  | 0, l => l
  | _ + 1, [] => []
  | n + 1, c :: cs =>
    match matchAnsi (c :: cs) with
    | some rest => removeAnsiAux n rest
    | none => c :: removeAnsiAux n cs

/-- Remove ANSI escape sequences (voice_service.py line 256). -/
def removeAnsi (l : List Char) : List Char := removeAnsiAux l.length l

/-- For the regex \[.*?\] : starting just after a literal [ , find the first ]
with no newline in between (in Python regexes . does not match newline);
returns the suffix after that ] . -/
def findCloseBracket : List Char → Option (List Char)
  | [] => none
  | ']' :: cs => some cs
  | '\n' :: _ => none
  | _ :: cs => findCloseBracket cs

/-- re.sub of \[.*?\] with the empty string (voice_service.py line 259):
leftmost, shortest, non-overlapping. -/
def removeBracketsAux : Nat → List Char → List Char
  | 0, l => l
  | _ + 1, [] => []
  | n + 1, '[' :: cs =>
    (match findCloseBracket cs with
     | some rest => removeBracketsAux n rest
     | none => '[' :: removeBracketsAux n cs)
  | n + 1, c :: cs => c :: removeBracketsAux n cs

/-- Remove bracketed annotations (voice_service.py line 259). -/
def removeBrackets (l : List Char) : List Char := removeBracketsAux l.length l

/-- For the regex \n\s*\n at a newline: walk the maximal whitespace run that
follows and remember the suffix after the last newline inside it; that is
where the greedy match with backtracking ends. -/
def matchBlankRun : List Char → Option (List Char) → Option (List Char)
  | [], acc => acc
  | c :: cs, acc =>
    if c = '\n' then matchBlankRun cs (some cs)
    else if isPySpace c then matchBlankRun cs acc
    else acc

/-- re.sub of \n\s*\n with a single newline (voice_service.py line 262),
leftmost, non-overlapping, the replacement is not rescanned. -/
def collapseBlankAux : Nat → List Char → List Char
  | 0, l => l
  | _ + 1, [] => []
  | n + 1, c :: cs =>
    if c = '\n' then
      match matchBlankRun cs none with
      | some rest => '\n' :: collapseBlankAux n rest
      | none => '\n' :: collapseBlankAux n cs
    else c :: collapseBlankAux n cs

/-- Collapse blank lines (voice_service.py line 262). -/
def collapseBlank (l : List Char) : List Char := collapseBlankAux l.length l

/-- Python str.split of a newline character (voice_service.py line 268):
empty segments are kept, the empty string yields one empty segment. -/
def splitLines : List Char → List (List Char)
  | [] => [[]]
  | c :: cs =>
    if c = '\n' then [] :: splitLines cs
    else
      match splitLines cs with
      | [] => [[c]]
      | h :: t => (c :: h) :: t

/-- The single space join of lines at voice_service.py line 269. -/
def joinWithSpace : List (List Char) → List Char
  | [] => []
  | [l] => l
  | l :: ls => l ++ ' ' :: joinWithSpace ls

/-- The sentence terminator class [.。!！?？] of voice_service.py line 274. -/
def isSentenceEnd (c : Char) : Bool :=
  c = '.' || c = '。' || c = '!' || c = '！' || c = '?' || c = '？'

/-- re.split on one or more sentence terminators (voice_service.py line 274):
a leading or trailing run yields an empty piece, as in Python. -/
def splitSentencesAux : Nat → List Char → List (List Char)
  | 0, l => [l]
  | n + 1, l =>
    let p := l.takeWhile (fun c => !isSentenceEnd c)
    let r := l.dropWhile (fun c => !isSentenceEnd c)
    match r with
    | [] => [p]
    | _ :: _ => p :: splitSentencesAux n (r.dropWhile isSentenceEnd)

/-- Split a flattened text into candidate sentences (voice_service.py line 274). -/
def splitSentences (l : List Char) : List (List Char) :=
  splitSentencesAux (l.length + 1) l

/-- The dedup loop of voice_service.py lines 277 to 283: strip each candidate,
keep it when it is nonempty and not seen before, remember it as seen. -/
def dedupSentences (seen : List (List Char)) : List (List Char) → List (List Char)
  | [] => []
  | s :: rest =>
    if pyStripList s ≠ [] ∧ pyStripList s ∉ seen then
      pyStripList s :: dedupSentences (pyStripList s :: seen) rest
    else dedupSentences seen rest

/-- VoiceService._clean_whisper_output (voice_service.py lines 248 to 286):
remove ANSI sequences, remove bracketed annotations, collapse blank lines,
strip, strip each line and join the nonempty ones with spaces, split into
sentences, strip and deduplicate them. -/
def clean_whisper_output (s : String) : List String :=
  (dedupSentences []
    (splitSentences
      (joinWithSpace
        (((splitLines (pyStripList (collapseBlank (removeBrackets (removeAnsi s.data))))).map
            pyStripList).filter (fun l => l ≠ []))))).map String.mk

/-- Bool test that pat is a leading piece of the second list. -/
def startsWith : List Char → List Char → Bool
  | [], _ => true
  | _ :: _, [] => false
  | p :: ps, c :: cs => p = c && startsWith ps cs

/-- Python str.replace: leftmost, non-overlapping (used with the nonempty
pattern [BLANK_AUDIO] in voice_service.py line 173).  Fuel at least the
length of the scanned list. -/
def pyReplaceAux (pat rep : List Char) : Nat → List Char → List Char
  | 0, l => l
  | _ + 1, [] => []
  | n + 1, c :: cs =>
    if startsWith pat (c :: cs) then rep ++ pyReplaceAux pat rep n ((c :: cs).drop pat.length)
    else c :: pyReplaceAux pat rep n cs

/-- Python str.replace on strings. -/
def pyReplace (s pat rep : String) : String :=
  String.mk (pyReplaceAux pat.data rep.data s.data.length s.data)

/-- Output handling of VoiceService.process_audio, steps 8 to 10
(voice_service.py lines 160 to 176): given the captured stdout of a
zero exit code run, strip it; empty means no speech, the exact sentinel
[BLANK_AUDIO] means blank audio, otherwise drop the sentinel substring
and strip again. -/
def process_audio_output (stdout : String) : String :=
  if pyStrip stdout = "" then "未检测到语音内容"
  else if pyStrip stdout = "[BLANK_AUDIO]" then "检测到空白音频"
  else pyStrip (pyReplace (pyStrip stdout) "[BLANK_AUDIO]" "")

/-- What the external engine subprocess produced: its exit code and the fully
captured stdout and stderr (the engine itself is a black box collaborator). -/
structure EngineOutcome where
  returncode : Int
  stdout : String
  stderr : String
deriving DecidableEq

/-- VoiceService.process_stream, after the subprocess ran (voice_service.py
lines 223 to 243): subprocess.run with check=True raises on a nonzero exit
code, which is mapped to a RuntimeError whose message carries the captured
stderr; on a zero exit code the stripped stdout is sanitized into sentences.
Except.error holds the message of the raised RuntimeError. -/
def process_stream (o : EngineOutcome) : Except String (List String) :=
  if o.returncode = 0 then Except.ok (clean_whisper_output (pyStrip o.stdout))
  else Except.error ("Whisper处理失败: " ++ o.stderr)

/-- Outcome of the one-shot upload handler: either a structured
RecognitionResponse (text and status; the wall clock duration field is not
modelled) or a request error (HTTPException). -/
inductive OneShotOutcome
| resp (text : String) (status : String)
| httpError (detail : String)
deriving DecidableEq

/-- The result handling of the recognize_audio handler (main.py lines
126 to 153) given the engine outcome of voice_service.process_stream on the
saved upload.  When process_stream raises, the handler turns it into an
HTTPException.  When it returns a list of sentences, line 132 evaluates
`not result or not result.strip()`: for an empty list the first test short
circuits and the handler replies no_text with empty text; for a nonempty
list, result.strip() is evaluated on a Python list and raises
AttributeError, which the handler at line 147 turns into an HTTPException,
so the success return at lines 141 to 145 is unreachable. -/
def recognize_audio (o : EngineOutcome) : OneShotOutcome :=
  match process_stream o with
  | Except.error msg => OneShotOutcome.httpError ("Audio processing failed: " ++ msg)
  | Except.ok result =>
    if result = [] then OneShotOutcome.resp "" "no_text"
    else OneShotOutcome.httpError "Audio processing failed: AttributeError"

/-- Two little-endian bytes as a signed 16 bit integer (np.int16). -/
def toInt16 (n : Nat) : Int := if n < 32768 then (n : Int) else (n : Int) - 65536

/-- A 32 bit little-endian word as a signed 32 bit integer (np.int32). -/
def toInt32 (n : Nat) : Int := if n < 2147483648 then (n : Int) else (n : Int) - 4294967296

/-- Little-endian 32 bit word from four bytes. -/
def word32 (b0 b1 b2 b3 : Nat) : Nat := b0 + 256 * b1 + 65536 * b2 + 16777216 * b3

/-- np.frombuffer(data, dtype=np.int16): consecutive little-endian pairs. -/
def decodeSamples : List Nat → List Int
  | b0 :: b1 :: rest => toInt16 (b0 + 256 * b1) :: decodeSamples rest
  | _ => []

/-- A decoded inbound frame: the two header words and the sample sequence
(main.py lines 209 to 211). -/
structure Frame where
  sampleRate : Int
  numSamples : Int
  samples : List Int
deriving DecidableEq

/-- Frame decoding (main.py lines 209 to 211).  data[:8] is parsed as two
np.int32, the rest as np.int16.  Fewer than 8 bytes raise a ValueError
(either frombuffer rejects a buffer that is not a multiple of the item size
or the 2-element unpacking fails); an odd sample byte count also raises.
none models the raised ValueError. -/
def decodeFrame (data : List Nat) : Option Frame :=
  match data with
  | b0 :: b1 :: b2 :: b3 :: b4 :: b5 :: b6 :: b7 :: rest =>
    if rest.length % 2 = 0 then
      some ⟨toInt32 (word32 b0 b1 b2 b3), toInt32 (word32 b4 b5 b6 b7), decodeSamples rest⟩
    else none
  | _ => none

/-- np.abs on an int16 value: the absolute value, except that it wraps on the
minimum value, np.abs(-32768) = -32768. -/
def npAbs16 (x : Int) : Int := if x = -32768 then x else |x|

/-- The volume measure of main.py line 212: np.abs(audio_data).mean(),
a rational in the model. -/
def volume (samples : List Int) : ℚ :=
  ((samples.map npAbs16).sum : ℚ) / (samples.length : ℚ)

/-- The declared duration num_samples / sample_rate added at main.py
line 222 (numpy true division of the two header words). -/
def frameDuration (f : Frame) : ℚ := (f.numSamples : ℚ) / (f.sampleRate : ℚ)

/-- A structured reply sent over the websocket (send_json at main.py
lines 249 to 267). -/
structure Reply where
  status : String
  text : String
deriving DecidableEq

/-- The mutable state of one streaming session (main.py lines 198 to 199):
the entries of audioBuffer record the appended audio_data arrays together
with the header words of the message that carried them; only the samples
are ever read back out of the buffer. -/
structure SessionState where
  audioBuffer : List Frame
  bufferDuration : ℚ
deriving DecidableEq

/-- Whether the receive loop runs another iteration or was terminated by an
exception that escaped to the handler at main.py line 281. -/
inductive LoopOutcome
| next (st : SessionState)
| closed (st : SessionState)
deriving DecidableEq

/-- Everything one loop iteration did: the loop outcome, the replies sent to
the peer, and the sample sequences passed to process_stream. -/
structure StepOut where
  outcome : LoopOutcome
  sent : List Reply
  invoked : List (List Int)
deriving DecidableEq

/-- The reply block of main.py lines 245 to 267 given the result of the
process_stream call: per nonempty sentence one success reply, one no_text
reply for an empty list, and for a raised error one error reply built from
the exception message. -/
def sendReplies (r : Except String (List String)) : List Reply :=
  match r with
  | Except.ok result =>
    if result = [] then [⟨"no_text", "未识别到文本"⟩]
    else (result.filter (fun s => s ≠ "")).map (fun s => ⟨"success", s⟩)
  | Except.error msg => [⟨"error", "处理错误: " ++ msg⟩]

/-- One iteration of the websocket receive loop (main.py lines 206 to 280),
parameterised by the engine behaviour.  A frame that fails to decode raises
ValueError, which only the outer handler catches: the loop ends (closed).
A decoded frame whose volume is below 500 is skipped (note np.mean of an
empty array is nan and nan < 500 is false, so an empty frame is not
skipped).  An accepted frame is appended and the declared duration added;
when the accumulated duration reaches 2.0 the buffered samples are
concatenated, written to a temp file, handed to process_stream, the replies
sent, and the buffer and duration are reset whether or not the invocation
raised.  Serialization and the sends themselves are assumed to succeed
here; the temp file lifecycle is modelled separately below. -/
def processMessage (invoke : List Int → EngineOutcome) (st : SessionState)
    (data : List Nat) : StepOut :=
  match decodeFrame data with
  | none => ⟨LoopOutcome.closed st, [], []⟩
  | some frame =>
    if frame.samples ≠ [] ∧ volume frame.samples < 500 then ⟨LoopOutcome.next st, [], []⟩
    else if 2 ≤ st.bufferDuration + frameDuration frame then
      ⟨LoopOutcome.next ⟨[], 0⟩,
       sendReplies (process_stream (invoke (((st.audioBuffer ++ [frame]).map Frame.samples).flatten))),
       [((st.audioBuffer ++ [frame]).map Frame.samples).flatten]⟩
    else
      ⟨LoopOutcome.next ⟨st.audioBuffer ++ [frame], st.bufferDuration + frameDuration frame⟩,
       [], []⟩

/-- A numpy float64 value as held in buffer_duration: an ordinary number
(idealised as an exact rational), one of the two infinities, or nan. -/
inductive NpQ
| finite (q : ℚ)
| pinf
| ninf
| nan
deriving DecidableEq

/-- numpy true division of two int32 scalars (main.py line 222): a zero
divisor emits only a RuntimeWarning and yields nan for 0/0 and a signed
infinity otherwise; a nonzero divisor gives the exact quotient. -/
def npDivInt (a b : Int) : NpQ :=
  if b = 0 then
    if a = 0 then NpQ.nan
    else if 0 < a then NpQ.pinf
    else NpQ.ninf
  else NpQ.finite ((a : ℚ) / (b : ℚ))

/-- float64 addition (the += of main.py line 222): nan propagates, opposite
infinities give nan, an infinity absorbs ordinary values; the sum of two
ordinary values is idealised as exact. -/
def npAdd : NpQ → NpQ → NpQ
  | NpQ.nan, _ => NpQ.nan
  | _, NpQ.nan => NpQ.nan
  | NpQ.pinf, NpQ.ninf => NpQ.nan
  | NpQ.ninf, NpQ.pinf => NpQ.nan
  | NpQ.pinf, _ => NpQ.pinf
  | _, NpQ.pinf => NpQ.pinf
  | NpQ.ninf, _ => NpQ.ninf
  | _, NpQ.ninf => NpQ.ninf
  | NpQ.finite a, NpQ.finite b => NpQ.finite (a + b)

/-- The float64 comparison buffer_duration >= MIN_DURATION of main.py
line 225: every comparison with nan is false. -/
def npGe : NpQ → NpQ → Bool
  | NpQ.nan, _ => false
  | _, NpQ.nan => false
  | NpQ.pinf, _ => true
  | NpQ.ninf, NpQ.ninf => true
  | NpQ.ninf, _ => false
  | NpQ.finite _, NpQ.ninf => true
  | NpQ.finite a, NpQ.finite b => decide (b ≤ a)
  | NpQ.finite _, NpQ.pinf => false

/-- float64 strict less-than: false whenever either side is nan. -/
def npLt : NpQ → NpQ → Bool
  | NpQ.nan, _ => false
  | _, NpQ.nan => false
  | NpQ.ninf, NpQ.ninf => false
  | NpQ.ninf, _ => true
  | NpQ.pinf, _ => false
  | NpQ.finite _, NpQ.ninf => false
  | NpQ.finite a, NpQ.finite b => decide (a < b)
  | NpQ.finite _, NpQ.pinf => true

/-- The mutable state of one streaming session with the duration held as
the numpy float64 value it is in the program; refines SessionState, whose
rational duration idealises away the nan and infinity cases. -/
structure SessionStateNp where
  audioBuffer : List Frame
  bufferDuration : NpQ
deriving DecidableEq

/-- Loop outcome over the refined state. -/
inductive LoopOutcomeNp
| next (st : SessionStateNp)
| closed (st : SessionStateNp)
deriving DecidableEq

/-- One loop iteration over the refined state: outcome, replies, invocations. -/
structure StepOutNp where
  outcome : LoopOutcomeNp
  sent : List Reply
  invoked : List (List Int)
deriving DecidableEq

/-- One iteration of the websocket receive loop exactly as processMessage,
but with the duration arithmetic of main.py lines 222 and 225 modelled on
NpQ, so a frame declaring a zero sample rate produces the nan or infinity
that numpy produces. -/
def processMessageNp (invoke : List Int → EngineOutcome) (st : SessionStateNp)
    (data : List Nat) : StepOutNp :=
  match decodeFrame data with
  | none => ⟨LoopOutcomeNp.closed st, [], []⟩
  | some frame =>
    if frame.samples ≠ [] ∧ volume frame.samples < 500 then ⟨LoopOutcomeNp.next st, [], []⟩
    else if npGe (npAdd st.bufferDuration (npDivInt frame.numSamples frame.sampleRate))
        (NpQ.finite 2) then
      ⟨LoopOutcomeNp.next ⟨[], NpQ.finite 0⟩,
       sendReplies (process_stream (invoke (((st.audioBuffer ++ [frame]).map Frame.samples).flatten))),
       [((st.audioBuffer ++ [frame]).map Frame.samples).flatten]⟩
    else
      ⟨LoopOutcomeNp.next ⟨st.audioBuffer ++ [frame],
        npAdd st.bufferDuration (npDivInt frame.numSamples frame.sampleRate)⟩, [], []⟩

/-- Run the receive loop over a list of inbound messages from a given
refined state; some st is the state at the next await point, none means the
loop was terminated by an escaped exception before consuming all messages. -/
def runMsgsNp (invoke : List Int → EngineOutcome) :
    SessionStateNp → List (List Nat) → Option SessionStateNp
  | st, [] => some st
  | st, d :: ds =>
    match (processMessageNp invoke st d).outcome with
    | LoopOutcomeNp.next st2 => runMsgsNp invoke st2 ds
    | LoopOutcomeNp.closed _ => none

/-- The accumulation of the computed per frame durations over a buffer in
arrival order, starting from zero, exactly as the loop builds
buffer_duration. -/
def npDurFold (frames : List Frame) : NpQ :=
  frames.foldl (fun d f => npAdd d (npDivInt f.numSamples f.sampleRate)) (NpQ.finite 0)

/-- A 10 byte message declaring sample rate 0 and sample count 0 while
carrying one sample of value 1000. -/
def nanMsg : List Nat := [0, 0, 0, 0, 0, 0, 0, 0, 232, 3]

/-- The frame that nanMsg decodes to. -/
def nanFrame : Frame := ⟨0, 0, [1000]⟩

/-- How the write of audio bytes to the temp file went: it succeeded, or it
raised after the file had been created (for example a failure mid write), or
it raised without creating the file. -/
inductive WriteOutcome
| ok
| raisedCreated
| raisedNotCreated
deriving DecidableEq

/-- if os.path.exists(p): os.remove(p) — after it the file does not exist. -/
def removeIfExists (b : Bool) : Bool := if b then false else b

/-- Does the temp file of one streaming flush still exist when the flush is
over (main.py lines 236 to 272)?  combined_audio.tofile at line 237 runs
before the try block of line 240 is entered, so an exception raised by the
write itself escapes with no cleanup; once inside the try block, the finally
at lines 268 to 272 removes the file both when process_stream returns and
when it raises. -/
def streaming_flush_temp_after (w : WriteOutcome) (eng : EngineOutcome) : Bool :=
  match w with
  | WriteOutcome.raisedNotCreated => false
  | WriteOutcome.raisedCreated => true
  | WriteOutcome.ok =>
    match process_stream eng with
    | Except.ok _ => removeIfExists true
    | Except.error _ => removeIfExists true

/-- Does the temp file of one one-shot upload still exist when the request is
over (main.py lines 113 to 161)?  The save at lines 118 to 124 and the
processing at lines 126 to 149 are both inside the try whose finally at
lines 155 to 161 removes the file if it exists, on every exit path. -/
def recognize_temp_after (w : WriteOutcome) (eng : EngineOutcome) : Bool :=
  match w with
  | WriteOutcome.raisedNotCreated => removeIfExists false
  | WriteOutcome.raisedCreated => removeIfExists true
  | WriteOutcome.ok =>
    match process_stream eng with
    | Except.ok _ => removeIfExists true
    | Except.error _ => removeIfExists true

/-- An engine that exits cleanly with empty output; used in witnesses. -/
def invoke0 : List Int → EngineOutcome := fun _ => ⟨0, "", ""⟩

/-- An engine that exits with code 1 and stderr boom; used in witnesses. -/
def invokeFail : List Int → EngineOutcome := fun _ => ⟨1, "", "boom"⟩

/-- A 12 byte message declaring rate 1 and 2 samples, both of value 1000. -/
def c3msg : List Nat := [1, 0, 0, 0, 2, 0, 0, 0, 232, 3, 232, 3]

/-- The frame that c3msg decodes to. -/
def c3frame : Frame := ⟨1, 2, [1000, 1000]⟩

/-- A 10 byte message declaring rate 1 and 1 sample of value 0. -/
def c5msg : List Nat := [1, 0, 0, 0, 1, 0, 0, 0, 0, 0]

/-- The frame that c5msg decodes to. -/
def c5frame : Frame := ⟨1, 1, [0]⟩

/-- A frame of 44100 Hz with 22050 samples of value 1000. -/
def c8frame : Frame := ⟨44100, 22050, List.replicate 22050 1000⟩

/-- The wire message carrying c8frame: header 44100, 22050 little-endian,
then 22050 copies of the sample 1000 = 0x03E8. -/
def c8msg : List Nat :=
  68 :: 172 :: 0 :: 0 :: 34 :: 86 :: 0 :: 0 :: (List.replicate 22050 [232, 3]).flatten

theorem decodeFrame_short : ∀ (data : List Nat), data.length < 8 → decodeFrame data = none := by
  intro data h
  rcases data with _ | ⟨b0, data⟩
  · rfl
  rcases data with _ | ⟨b1, data⟩
  · rfl
  rcases data with _ | ⟨b2, data⟩
  · rfl
  rcases data with _ | ⟨b3, data⟩
  · rfl
  rcases data with _ | ⟨b4, data⟩
  · rfl
  rcases data with _ | ⟨b5, data⟩
  · rfl
  rcases data with _ | ⟨b6, data⟩
  · rfl
  rcases data with _ | ⟨b7, data⟩
  · rfl
  simp [List.length_cons] at h
  omega

theorem processMessage_closed_of_decode_none (invoke : List Int → EngineOutcome)
    (st : SessionState) (data : List Nat) (h : decodeFrame data = none) :
    processMessage invoke st data = ⟨LoopOutcome.closed st, [], []⟩ := by
  simp [processMessage, h]

theorem processMessage_skip (invoke : List Int → EngineOutcome) (st : SessionState)
    (data : List Nat) (frame : Frame) (hdec : decodeFrame data = some frame)
    (hvol : frame.samples ≠ [] ∧ volume frame.samples < 500) :
    processMessage invoke st data = ⟨LoopOutcome.next st, [], []⟩ := by
  simp [processMessage, hdec, hvol]

theorem processMessage_flush (invoke : List Int → EngineOutcome) (st : SessionState)
    (data : List Nat) (frame : Frame) (hdec : decodeFrame data = some frame)
    (hvol : ¬(frame.samples ≠ [] ∧ volume frame.samples < 500))
    (hge : 2 ≤ st.bufferDuration + frameDuration frame) :
    processMessage invoke st data =
      ⟨LoopOutcome.next ⟨[], 0⟩,
       sendReplies (process_stream (invoke (((st.audioBuffer ++ [frame]).map Frame.samples).flatten))),
       [((st.audioBuffer ++ [frame]).map Frame.samples).flatten]⟩ := by
  simp [processMessage, hdec, hvol, hge]

theorem processMessage_accept (invoke : List Int → EngineOutcome) (st : SessionState)
    (data : List Nat) (frame : Frame) (hdec : decodeFrame data = some frame)
    (hvol : ¬(frame.samples ≠ [] ∧ volume frame.samples < 500))
    (hlt : st.bufferDuration + frameDuration frame < 2) :
    processMessage invoke st data =
      ⟨LoopOutcome.next ⟨st.audioBuffer ++ [frame], st.bufferDuration + frameDuration frame⟩,
       [], []⟩ := by
  simp [processMessage, hdec, hvol, not_le.mpr hlt]

theorem dedupSentences_not_mem_seen :
    ∀ (l seen : List (List Char)) (x : List Char), x ∈ dedupSentences seen l → x ∉ seen := by
  intro l
  induction l with
  | nil => intro seen x hx; simp [dedupSentences] at hx
  | cons s rest ih =>
    intro seen x hx
    rw [dedupSentences] at hx
    by_cases h : pyStripList s ≠ [] ∧ pyStripList s ∉ seen
    · rw [if_pos h] at hx
      rcases List.mem_cons.mp hx with h1 | h1
      · subst h1; exact h.2
      · intro hseen
        exact (ih _ x h1) (List.mem_cons_of_mem _ hseen)
    · rw [if_neg h] at hx
      exact ih _ x hx

theorem dedupSentences_nodup (l : List (List Char)) :
    ∀ seen : List (List Char), (dedupSentences seen l).Nodup := by
  induction l with
  | nil => intro seen; simp [dedupSentences]
  | cons s rest ih =>
    intro seen
    rw [dedupSentences]
    by_cases h : pyStripList s ≠ [] ∧ pyStripList s ∉ seen
    · rw [if_pos h]
      refine List.nodup_cons.mpr ⟨?_, ih _⟩
      intro hmem
      exact (dedupSentences_not_mem_seen rest _ _ hmem) (List.mem_cons_self _ _)
    · rw [if_neg h]
      exact ih _

theorem stringMk_injective : Function.Injective String.mk := by
  intro a b h
  injection h

theorem npAbs16_le_abs (x : ℤ) : npAbs16 x ≤ |x| := by
  unfold npAbs16
  split
  · next h => subst h; decide
  · exact le_refl _

theorem decodeSamples_pairs (n : Nat) :
    decodeSamples ((List.replicate n ([232, 3] : List Nat)).flatten) =
      List.replicate n (1000 : ℤ) := by
  induction n with
  | zero => rfl
  | succ k ih =>
    rw [List.replicate_succ, List.flatten_cons, List.cons_append, List.cons_append,
      List.nil_append]
    simp only [decodeSamples]
    rw [ih]
    norm_num [toInt16, List.replicate_succ]

theorem pairFlattenLength (n : Nat) :
    ((List.replicate n ([232, 3] : List Nat)).flatten).length = 2 * n := by
  induction n with
  | zero => rfl
  | succ k ih =>
    rw [List.replicate_succ, List.flatten_cons, List.length_append, ih]
    simp [List.length_cons]
    omega

theorem c8msg_decode : decodeFrame c8msg = some c8frame := by
  have hlen : (((List.replicate 22050 ([232, 3] : List Nat)).flatten).length) % 2 = 0 := by
    rw [pairFlattenLength]
  show (if (((List.replicate 22050 ([232, 3] : List Nat)).flatten).length) % 2 = 0 then
      some (⟨toInt32 (word32 68 172 0 0), toInt32 (word32 34 86 0 0),
        decodeSamples ((List.replicate 22050 ([232, 3] : List Nat)).flatten)⟩ : Frame)
    else none) = some c8frame
  rw [if_pos hlen, decodeSamples_pairs]
  have h1 : toInt32 (word32 68 172 0 0) = 44100 := by norm_num [toInt32, word32]
  have h2 : toInt32 (word32 34 86 0 0) = 22050 := by norm_num [toInt32, word32]
  rw [h1, h2]
  rfl

theorem c8_not_quiet : ¬(c8frame.samples ≠ [] ∧ volume c8frame.samples < 500) := by
  intro hq
  have hv : volume c8frame.samples = 1000 := by
    have hs : c8frame.samples = List.replicate 22050 (1000 : ℤ) := rfl
    rw [hs]
    unfold volume
    rw [List.map_replicate, List.sum_replicate, List.length_replicate]
    norm_num [npAbs16]
  rw [hv] at hq
  exact absurd hq.2 (by norm_num)

theorem c8_duration : frameDuration c8frame = 1 / 2 := by
  unfold frameDuration c8frame
  norm_num

theorem c8_combined :
    (([c8frame, c8frame, c8frame] ++ [c8frame]).map Frame.samples).flatten =
      List.replicate 88200 (1000 : ℤ) := by
  simp only [List.cons_append, List.nil_append, List.map_cons, List.map_nil,
    List.flatten_cons, List.flatten_nil, c8frame]
  rw [List.append_nil, ← List.replicate_add, ← List.replicate_add, ← List.replicate_add]

/-- C1: for a one-shot upload whose engine run exits 0, the handler replies
no_text with empty text when sanitization yields no sentences; but when
recognition produced nonblank text (here the single sentence hello), the
code evaluates result.strip() on a Python list, raises AttributeError and
surfaces a request error instead of the structured success reply, so the
success half of the claim fails on the code (main.py line 132). -/
theorem oneshot_reply_statuses :
    recognize_audio ⟨0, "hello.", ""⟩ =
      OneShotOutcome.httpError "Audio processing failed: AttributeError" ∧
    recognize_audio ⟨0, "", ""⟩ = OneShotOutcome.resp "" "no_text" :=
  ⟨by decide, by decide⟩

/-- C2 counterexample: a 3 byte inbound message is not simply dropped with
the session continuing; the step does not leave the loop awaiting the next
frame with unchanged state and no replies. -/
theorem short_frame_not_dropped_and_continued :
    processMessage invoke0 ⟨[], 0⟩ [0, 0, 0] ≠ ⟨LoopOutcome.next ⟨[], 0⟩, [], []⟩ := by
  decide

/-- C2 (amended): for every inbound binary message of fewer than 8 bytes,
the ValueError raised while decoding is caught by no handler inside the
receive loop, so the loop terminates (the session closes after the error is
logged); the pending buffer and accumulated duration are unchanged at that
point, no reply is sent and no invocation occurs. -/
theorem short_frame_terminates_session (invoke : List Int → EngineOutcome)
    (st : SessionState) (data : List Nat) (h : data.length < 8) :
    processMessage invoke st data = ⟨LoopOutcome.closed st, [], []⟩ :=
  processMessage_closed_of_decode_none invoke st data (decodeFrame_short data h)

/-- Witness for the amended C2 theorem at the concrete 3 byte message. -/
theorem short_frame_terminates_session_witness :
    ([0, 0, 0] : List Nat).length < 8 ∧
    processMessage invoke0 ⟨[], 0⟩ [0, 0, 0] = ⟨LoopOutcome.closed ⟨[], 0⟩, [], []⟩ :=
  ⟨by decide, short_frame_terminates_session invoke0 ⟨[], 0⟩ [0, 0, 0] (by decide)⟩

/-- C4: when the engine output of a one-shot run is exactly the sentinel
[BLANK_AUDIO], process_audio detects it before sanitization and returns the
fixed text 检测到空白音频 (voice_service.py lines 168 to 170); had it been
passed through the sanitization step instead (replace then strip,
line 173), the result would have been the empty string. -/
theorem oneshot_blank_audio_sentinel :
    process_audio_output "[BLANK_AUDIO]" = "检测到空白音频" ∧
    pyStrip (pyReplace "[BLANK_AUDIO]" "[BLANK_AUDIO]" "") = "" :=
  ⟨by decide, by decide⟩

/-- C6 counterexample: on the streaming path, when the serialization step
itself (combined_audio.tofile at main.py line 237) raises after the file was
created, the temp file still exists when the flush is over, because the
try/finally cleanup scope of lines 240 to 272 was never entered. -/
theorem streaming_serialization_leak :
    streaming_flush_temp_after WriteOutcome.raisedCreated ⟨0, "", ""⟩ = true := rfl

/-- C6 (amended): the temp file does not exist at completion on a normal
return, on an engine nonzero exit, and on any exception raised during
invocation, for both the streaming flush and the one-shot upload; on the
one-shot path this also covers exceptions while saving the upload, but on
the streaming path an exception raised by the serialization step itself
escapes before the cleanup scope is entered (see the counterexample). -/
theorem temp_file_removed_on_covered_paths (w : WriteOutcome) (eng : EngineOutcome) :
    streaming_flush_temp_after WriteOutcome.ok eng = false ∧
    streaming_flush_temp_after WriteOutcome.raisedNotCreated eng = false ∧
    recognize_temp_after w eng = false := by
  refine ⟨?_, rfl, ?_⟩
  · cases hq : process_stream eng <;>
      simp [streaming_flush_temp_after, hq, removeIfExists]
  · cases w
    · cases hq : process_stream eng <;>
        simp [recognize_temp_after, hq, removeIfExists]
    · simp [recognize_temp_after, removeIfExists]
    · simp [recognize_temp_after, removeIfExists]

/-- C9: the output sanitizer deduplicates sentences preserving first
occurrence order: on the input Hi. Hi. Bye. it returns exactly the two
sentences Hi and Bye, and for every input string no sentence occurs twice
in the returned list (voice_service.py lines 274 to 286). -/
theorem sanitizer_dedup :
    clean_whisper_output "Hi. Hi. Bye." = ["Hi", "Bye"] ∧
    ∀ s : String, (clean_whisper_output s).Nodup := by
  constructor
  · decide
  · intro s
    unfold clean_whisper_output
    exact (dedupSentences_nodup _ _).map stringMk_injective

theorem c3_volume : volume c3frame.samples = 1000 := by
  norm_num [volume, c3frame, npAbs16]

theorem c3_not_quiet : ¬(c3frame.samples ≠ [] ∧ volume c3frame.samples < 500) := by
  intro h
  rw [c3_volume] at h
  exact absurd h.2 (by norm_num)

theorem c3_crossing : 2 ≤ (⟨[], 0⟩ : SessionState).bufferDuration + frameDuration c3frame := by
  norm_num [frameDuration, c3frame]

theorem c5_mean_small :
    ((c5frame.samples.map (fun x : ℤ => |x|)).sum : ℚ) /
      (c5frame.samples.length : ℚ) < 500 := by
  norm_num [c5frame]

/-- C3: for every sequence of accepted frames whose summed declared duration
reaches or exceeds 2.0 seconds, processing the frame that crosses the
threshold triggers exactly one engine invocation and immediately afterwards
the pending frame sequence is empty and the accumulated duration is zero,
for every engine behaviour, success or raised error (main.py lines
225 to 276). -/
theorem flush_on_threshold_resets_buffer (invoke : List Int → EngineOutcome)
    (st : SessionState) (data : List Nat) (frame : Frame)
    (hdec : decodeFrame data = some frame)
    (hvol : ¬(frame.samples ≠ [] ∧ volume frame.samples < 500))
    (hge : 2 ≤ st.bufferDuration + frameDuration frame) :
    (processMessage invoke st data).invoked.length = 1 ∧
    (processMessage invoke st data).outcome = LoopOutcome.next ⟨[], 0⟩ := by
  rw [processMessage_flush invoke st data frame hdec hvol hge]
  exact ⟨rfl, rfl⟩

/-- Witness for C3 at a concrete crossing frame and a concrete engine. -/
theorem flush_on_threshold_resets_buffer_witness :
    (decodeFrame c3msg = some c3frame ∧
     ¬(c3frame.samples ≠ [] ∧ volume c3frame.samples < 500) ∧
     2 ≤ (⟨[], 0⟩ : SessionState).bufferDuration + frameDuration c3frame) ∧
    ((processMessage invoke0 ⟨[], 0⟩ c3msg).invoked.length = 1 ∧
     (processMessage invoke0 ⟨[], 0⟩ c3msg).outcome = LoopOutcome.next ⟨[], 0⟩) :=
  ⟨⟨by decide, c3_not_quiet, c3_crossing⟩,
   flush_on_threshold_resets_buffer invoke0 ⟨[], 0⟩ c3msg c3frame
     (by decide) c3_not_quiet c3_crossing⟩

theorem sendReplies_error (o : EngineOutcome) (h : o.returncode ≠ 0) :
    sendReplies (process_stream o) =
      [⟨"error", "处理错误: " ++ ("Whisper处理失败: " ++ o.stderr)⟩] := by
  simp [sendReplies, process_stream, h]

/-- C7: when the engine exits nonzero during a streaming flush, the one
invocation is not retried and fails with an error carrying the captured
stderr, exactly one structured error reply is sent to the peer, and the loop
is still awaiting the next frame with the buffer reset: an engine failure
never terminates the session (voice_service.py lines 241 to 243, main.py
lines 261 to 276). -/
theorem engine_failure_error_reply_session_continues
    (invoke : List Int → EngineOutcome) (st : SessionState) (data : List Nat)
    (frame : Frame) (hdec : decodeFrame data = some frame)
    (hvol : ¬(frame.samples ≠ [] ∧ volume frame.samples < 500))
    (hge : 2 ≤ st.bufferDuration + frameDuration frame)
    (hfail : (invoke (((st.audioBuffer ++ [frame]).map Frame.samples).flatten)).returncode ≠ 0) :
    (processMessage invoke st data).sent =
      [⟨"error", "处理错误: " ++ ("Whisper处理失败: " ++
        (invoke (((st.audioBuffer ++ [frame]).map Frame.samples).flatten)).stderr)⟩] ∧
    (processMessage invoke st data).invoked =
      [((st.audioBuffer ++ [frame]).map Frame.samples).flatten] ∧
    (processMessage invoke st data).outcome = LoopOutcome.next ⟨[], 0⟩ := by
  rw [processMessage_flush invoke st data frame hdec hvol hge]
  exact ⟨sendReplies_error _ hfail, rfl, rfl⟩

/-- Witness for C7 at a concrete crossing frame and a failing engine. -/
theorem engine_failure_error_reply_witness :
    (decodeFrame c3msg = some c3frame ∧
     ¬(c3frame.samples ≠ [] ∧ volume c3frame.samples < 500) ∧
     2 ≤ (⟨[], 0⟩ : SessionState).bufferDuration + frameDuration c3frame ∧
     (invokeFail ((((⟨[], 0⟩ : SessionState).audioBuffer ++ [c3frame]).map
        Frame.samples).flatten)).returncode ≠ 0) ∧
    ((processMessage invokeFail ⟨[], 0⟩ c3msg).sent =
      [⟨"error", "处理错误: " ++ ("Whisper处理失败: " ++
        (invokeFail ((((⟨[], 0⟩ : SessionState).audioBuffer ++ [c3frame]).map
          Frame.samples).flatten)).stderr)⟩] ∧
     (processMessage invokeFail ⟨[], 0⟩ c3msg).invoked =
      [(((⟨[], 0⟩ : SessionState).audioBuffer ++ [c3frame]).map Frame.samples).flatten] ∧
     (processMessage invokeFail ⟨[], 0⟩ c3msg).outcome = LoopOutcome.next ⟨[], 0⟩) :=
  ⟨⟨by decide, c3_not_quiet, c3_crossing, by decide⟩,
   engine_failure_error_reply_session_continues invokeFail ⟨[], 0⟩ c3msg c3frame
     (by decide) c3_not_quiet c3_crossing (by decide)⟩

/-- C5: a decoded frame with at least one sample whose mean absolute sample
amplitude is below 500 is discarded: the state is unchanged, nothing is
appended, the duration is not incremented, no invocation occurs and no reply
is sent (main.py lines 211 to 218).  The code compares np.abs(...).mean(),
which never exceeds the true mean absolute amplitude, so a frame quiet in
the sense of the claim is always skipped. -/
theorem quiet_frame_leaves_state_unchanged (invoke : List Int → EngineOutcome)
    (st : SessionState) (data : List Nat) (frame : Frame)
    (hdec : decodeFrame data = some frame)
    (hne : frame.samples ≠ [])
    (hmean : ((frame.samples.map (fun x : ℤ => |x|)).sum : ℚ) /
        (frame.samples.length : ℚ) < 500) :
    processMessage invoke st data = ⟨LoopOutcome.next st, [], []⟩ := by
  apply processMessage_skip invoke st data frame hdec
  refine ⟨hne, lt_of_le_of_lt ?_ hmean⟩
  unfold volume
  have hsum : ((frame.samples.map npAbs16).sum : ℚ) ≤
      ((frame.samples.map (fun x : ℤ => |x|)).sum : ℚ) := by
    exact_mod_cast List.sum_le_sum (fun x _ => npAbs16_le_abs x)
  gcongr

/-- Witness for C5 at a concrete quiet frame. -/
theorem quiet_frame_leaves_state_unchanged_witness :
    (decodeFrame c5msg = some c5frame ∧
     c5frame.samples ≠ [] ∧
     ((c5frame.samples.map (fun x : ℤ => |x|)).sum : ℚ) /
        (c5frame.samples.length : ℚ) < 500) ∧
    processMessage invoke0 ⟨[], 0⟩ c5msg = ⟨LoopOutcome.next ⟨[], 0⟩, [], []⟩ :=
  ⟨⟨by decide, by decide, c5_mean_small⟩,
   quiet_frame_leaves_state_unchanged invoke0 ⟨[], 0⟩ c5msg c5frame
     (by decide) (by decide) c5_mean_small⟩

theorem processMessageNp_closed_of_decode_none (invoke : List Int → EngineOutcome)
    (st : SessionStateNp) (data : List Nat) (h : decodeFrame data = none) :
    processMessageNp invoke st data = ⟨LoopOutcomeNp.closed st, [], []⟩ := by
  simp [processMessageNp, h]

theorem processMessageNp_skip (invoke : List Int → EngineOutcome) (st : SessionStateNp)
    (data : List Nat) (frame : Frame) (hdec : decodeFrame data = some frame)
    (hvol : frame.samples ≠ [] ∧ volume frame.samples < 500) :
    processMessageNp invoke st data = ⟨LoopOutcomeNp.next st, [], []⟩ := by
  simp [processMessageNp, hdec, hvol]

theorem processMessageNp_flush (invoke : List Int → EngineOutcome) (st : SessionStateNp)
    (data : List Nat) (frame : Frame) (hdec : decodeFrame data = some frame)
    (hvol : ¬(frame.samples ≠ [] ∧ volume frame.samples < 500))
    (hge : npGe (npAdd st.bufferDuration (npDivInt frame.numSamples frame.sampleRate))
        (NpQ.finite 2) = true) :
    processMessageNp invoke st data =
      ⟨LoopOutcomeNp.next ⟨[], NpQ.finite 0⟩,
       sendReplies (process_stream (invoke (((st.audioBuffer ++ [frame]).map Frame.samples).flatten))),
       [((st.audioBuffer ++ [frame]).map Frame.samples).flatten]⟩ := by
  simp [processMessageNp, hdec, hvol, hge]

theorem processMessageNp_accept (invoke : List Int → EngineOutcome) (st : SessionStateNp)
    (data : List Nat) (frame : Frame) (hdec : decodeFrame data = some frame)
    (hvol : ¬(frame.samples ≠ [] ∧ volume frame.samples < 500))
    (hlt : npGe (npAdd st.bufferDuration (npDivInt frame.numSamples frame.sampleRate))
        (NpQ.finite 2) = false) :
    processMessageNp invoke st data =
      ⟨LoopOutcomeNp.next ⟨st.audioBuffer ++ [frame],
        npAdd st.bufferDuration (npDivInt frame.numSamples frame.sampleRate)⟩, [], []⟩ := by
  simp [processMessageNp, hdec, hvol, hlt]

theorem nanMsg_decode : decodeFrame nanMsg = some nanFrame := by decide

theorem nanFrame_not_quiet : ¬(nanFrame.samples ≠ [] ∧ volume nanFrame.samples < 500) := by
  intro h
  have hv : volume nanFrame.samples = 1000 := by
    norm_num [volume, nanFrame, npAbs16]
  rw [hv] at h
  exact absurd h.2 (by norm_num)

theorem nanFrame_duration :
    npAdd (NpQ.finite 0) (npDivInt nanFrame.numSamples nanFrame.sampleRate) = NpQ.nan := rfl

/-- C10 counterexample: the 10 byte message declaring sample rate 0 and
sample count 0 while carrying one sample of value 1000 passes the volume
gate, and the numpy division 0/0 yields nan (with only a RuntimeWarning),
so the receive loop reaches its await point with one buffered frame and a
nan accumulated duration: nan is not strictly less than 2.0 and equals no
rational sum, falsifying the claimed invariant at a reachable await
point. -/
theorem nan_duration_at_await :
    runMsgsNp invoke0 ⟨[], NpQ.finite 0⟩ [nanMsg] = some ⟨[nanFrame], NpQ.nan⟩ ∧
    npLt NpQ.nan (NpQ.finite 2) = false ∧
    ∀ q : ℚ, NpQ.nan ≠ NpQ.finite q := by
  refine ⟨?_, rfl, fun q h => by cases h⟩
  have hacc := processMessageNp_accept invoke0 ⟨[], NpQ.finite 0⟩ nanMsg nanFrame
    nanMsg_decode nanFrame_not_quiet (by rfl)
  simp [runMsgsNp, hacc, nanFrame_duration]

theorem stepNp_preserves_inv (invoke : List Int → EngineOutcome) (st : SessionStateNp)
    (data : List Nat) (st2 : SessionStateNp)
    (h : st.bufferDuration = npDurFold st.audioBuffer ∧
      npGe st.bufferDuration (NpQ.finite 2) = false)
    (hstep : (processMessageNp invoke st data).outcome = LoopOutcomeNp.next st2) :
    st2.bufferDuration = npDurFold st2.audioBuffer ∧
    npGe st2.bufferDuration (NpQ.finite 2) = false := by
  cases hdec : decodeFrame data with
  | none =>
    rw [processMessageNp_closed_of_decode_none invoke st data hdec] at hstep
    simp at hstep
  | some frame =>
    by_cases hvol : frame.samples ≠ [] ∧ volume frame.samples < 500
    · rw [processMessageNp_skip invoke st data frame hdec hvol] at hstep
      simp at hstep
      exact hstep ▸ h
    · cases hge : npGe (npAdd st.bufferDuration (npDivInt frame.numSamples frame.sampleRate))
          (NpQ.finite 2) with
      | true =>
        rw [processMessageNp_flush invoke st data frame hdec hvol hge] at hstep
        simp at hstep
        refine hstep ▸ ?_
        exact ⟨rfl, by decide⟩
      | false =>
        rw [processMessageNp_accept invoke st data frame hdec hvol hge] at hstep
        simp at hstep
        refine hstep ▸ ?_
        constructor
        · show npAdd st.bufferDuration (npDivInt frame.numSamples frame.sampleRate) =
            npDurFold (st.audioBuffer ++ [frame])
          rw [h.1, npDurFold, npDurFold, List.foldl_append]
          rfl
        · exact hge

theorem runMsgsNp_inv (invoke : List Int → EngineOutcome) :
    ∀ (msgs : List (List Nat)) (st st2 : SessionStateNp),
      (st.bufferDuration = npDurFold st.audioBuffer ∧
        npGe st.bufferDuration (NpQ.finite 2) = false) →
      runMsgsNp invoke st msgs = some st2 →
      st2.bufferDuration = npDurFold st2.audioBuffer ∧
      npGe st2.bufferDuration (NpQ.finite 2) = false := by
  intro msgs
  induction msgs with
  | nil =>
    intro st st2 h hr
    simp only [runMsgsNp, Option.some.injEq] at hr
    exact hr ▸ h
  | cons d ds ih =>
    intro st st2 h hr
    simp only [runMsgsNp] at hr
    split at hr
    · next s hs => exact ih s st2 (stepNp_preserves_inv invoke st d s h hs) hr
    · next s hs => cases hr

/-- C10 (amended): at every await point reachable by the receive loop from
the fresh session state, the accumulated duration is exactly the
accumulation, in arrival order starting from zero, of the computed duration
(numpy num_samples/sample_rate, with its nan and infinity cases) of exactly
the frames currently held in the pending buffer — both are reset together
and only grow together — and the flush check duration >= 2.0 is false
there, so whenever the accumulated duration is an ordinary number it is
strictly less than 2.0.  The unconditional strict bound and the exact sum
equality of the original claim fail at a zero rate frame whose computed
duration is nan (see the counterexample). -/
theorem receive_loop_buffer_coupling (invoke : List Int → EngineOutcome)
    (msgs : List (List Nat)) (st : SessionStateNp)
    (h : runMsgsNp invoke ⟨[], NpQ.finite 0⟩ msgs = some st) :
    st.bufferDuration = npDurFold st.audioBuffer ∧
    npGe st.bufferDuration (NpQ.finite 2) = false ∧
    ∀ q : ℚ, st.bufferDuration = NpQ.finite q → q < 2 := by
  have hinv := runMsgsNp_inv invoke msgs ⟨[], NpQ.finite 0⟩ st ⟨rfl, by decide⟩ h
  refine ⟨hinv.1, hinv.2, ?_⟩
  intro q hq
  have h2 := hinv.2
  rw [hq] at h2
  simp only [npGe, decide_eq_false_iff_not, not_le] at h2
  exact h2

/-- Witness for the amended C10 theorem at the empty message list. -/
theorem receive_loop_buffer_coupling_witness :
    runMsgsNp invoke0 ⟨[], NpQ.finite 0⟩ [] = some ⟨[], NpQ.finite 0⟩ ∧
    ((⟨[], NpQ.finite 0⟩ : SessionStateNp).bufferDuration =
        npDurFold (⟨[], NpQ.finite 0⟩ : SessionStateNp).audioBuffer ∧
      npGe (⟨[], NpQ.finite 0⟩ : SessionStateNp).bufferDuration (NpQ.finite 2) = false ∧
      ∀ q : ℚ, (⟨[], NpQ.finite 0⟩ : SessionStateNp).bufferDuration = NpQ.finite q → q < 2) :=
  ⟨rfl, receive_loop_buffer_coupling invoke0 [] ⟨[], NpQ.finite 0⟩ rfl⟩

/-- C8: feeding three frames of 44100 Hz with 22050 samples of amplitude
1000 each leaves the accumulated duration at 1.5 seconds with no flush and
no invocation; a fourth equal frame brings the duration to 2.0, triggering a
flush whose single invocation receives the 88200 sample concatenation of the
four frames in arrival order, after which the buffer is reset (main.py
lines 220 to 237). -/
theorem four_frame_scenario (invoke : List Int → EngineOutcome) :
    processMessage invoke ⟨[], 0⟩ c8msg =
      ⟨LoopOutcome.next ⟨[c8frame], 1 / 2⟩, [], []⟩ ∧
    processMessage invoke ⟨[c8frame], 1 / 2⟩ c8msg =
      ⟨LoopOutcome.next ⟨[c8frame, c8frame], 1⟩, [], []⟩ ∧
    processMessage invoke ⟨[c8frame, c8frame], 1⟩ c8msg =
      ⟨LoopOutcome.next ⟨[c8frame, c8frame, c8frame], 3 / 2⟩, [], []⟩ ∧
    (processMessage invoke ⟨[c8frame, c8frame, c8frame], 3 / 2⟩ c8msg).invoked =
      [List.replicate 88200 (1000 : ℤ)] ∧
    (processMessage invoke ⟨[c8frame, c8frame, c8frame], 3 / 2⟩ c8msg).outcome =
      LoopOutcome.next ⟨[], 0⟩ := by
  have h1 : (⟨[], 0⟩ : SessionState).bufferDuration + frameDuration c8frame < 2 := by
    norm_num [frameDuration, c8frame]
  have h2 : (⟨[c8frame], 1 / 2⟩ : SessionState).bufferDuration + frameDuration c8frame < 2 := by
    norm_num [frameDuration, c8frame]
  have h3 : (⟨[c8frame, c8frame], 1⟩ : SessionState).bufferDuration +
      frameDuration c8frame < 2 := by
    norm_num [frameDuration, c8frame]
  have h4 : 2 ≤ (⟨[c8frame, c8frame, c8frame], 3 / 2⟩ : SessionState).bufferDuration +
      frameDuration c8frame := by
    norm_num [frameDuration, c8frame]
  have hflush := processMessage_flush invoke ⟨[c8frame, c8frame, c8frame], 3 / 2⟩ c8msg
    c8frame c8msg_decode c8_not_quiet h4
  refine ⟨?_, ?_, ?_, ?_, ?_⟩
  · rw [processMessage_accept invoke ⟨[], 0⟩ c8msg c8frame c8msg_decode c8_not_quiet h1]
    norm_num [c8_duration]
  · rw [processMessage_accept invoke ⟨[c8frame], 1 / 2⟩ c8msg c8frame c8msg_decode
      c8_not_quiet h2]
    norm_num [c8_duration]
  · rw [processMessage_accept invoke ⟨[c8frame, c8frame], 1⟩ c8msg c8frame c8msg_decode
      c8_not_quiet h3]
    norm_num [c8_duration]
  · rw [hflush]
    exact congrArg (fun l => [l]) c8_combined
  · rw [hflush]
